import Mathlib

/-!
Verification of the merger-arbitrage engine (src/merger_arbitrage) against its
natural-language specification. The Python modules are shallowly embedded:
dictionaries become association lists (first occurrence of a key is its
binding, as in a Python dict), floats become exact rationals, Python ints
become ℤ, and `None`-able values become `Option`. Python `int(x)` truncation
is `pyInt`, Python `//` floor division on our (always positive) divisors is
`Int.ediv`.
-/

/-- Association-list lookup: the binding of a key is its first occurrence,
matching a Python dict (whose keys are unique). -/
def alookup {α : Type} : List (String × α) → String → Option α
  | [], _ => none
  | p :: rest, k => if p.1 = k then some p.2 else alookup rest k

/-- Association-list update `d[k] = v`: replaces the first binding of `k`, or
appends a new one, matching Python dict assignment (which keeps insertion
order and key positions). -/
def aset {α : Type} : List (String × α) → String → α → List (String × α)
  | [], k, v => [(k, v)]
  | p :: rest, k, v => if p.1 = k then (k, v) :: rest else p :: aset rest k v

/-- `d.get(k, 0)` for an integer-valued table. -/
def posGet (l : List (String × ℤ)) (t : String) : ℤ := (alookup l t).getD 0

/-- Python `int(x)`: truncation toward zero. -/
def pyInt (q : ℚ) : ℤ := if q ≥ 0 then ⌊q⌋ else -⌊-q⌋

/-- Python `round(x, 2)` modelled as rounding half-up to two decimals. (CPython
rounds floats half-to-even; the two differ only on exact half-cent ties, and no
claim in this development depends on the rounded value itself.) -/
def pyRound2 (q : ℚ) : ℚ := ((⌊q * 100 + 1/2⌋ : ℤ) : ℚ) / 100

/-! Constants from src/merger_arbitrage/config.py. -/

def GROSS_POSITION_LIMIT : ℤ := 100000

def NET_POSITION_LIMIT : ℤ := 50000

def MAX_ORDER_SIZE : ℤ := 5000

def COMMISSION_PER_SHARE : ℚ := 0.02

def HEAT_DURATION_TICKS : ℤ := 600

def MIN_MISPRICING_THRESHOLD : ℚ := 0.15

def SPREAD_SAFETY_FACTOR : ℚ := 0.5

def MAX_POSITION_PER_DEAL : ℤ := 10000

def URGENCY_CLOSE_TICKS : ℤ := 60

def URGENCY_CRITICAL_TICKS : ℤ := 15

def HEDGE_RATIO_TOLERANCE : ℚ := 0.10

def ORDER_REFRESH_INTERVAL_TICKS : ℤ := 5

/-- Deal structure variant. The Python source stores it as a string and raises
`ValueError` on any string other than these three; the inductive type makes
that error branch unreachable. -/
inductive DealStructure where
  | all_cash
  | stock_for_stock
  | mixed
deriving DecidableEq, Repr

/-- Immutable deal parameters (config.py `DealConfig`). The Python field
`structure` is a Lean keyword and is named `structure_kind` here. -/
structure DealConfig where
  deal_id : String
  target_ticker : String
  acquirer_ticker : String
  structure_kind : DealStructure
  cash_component : ℚ
  exchange_ratio : ℚ
  target_start_price : ℚ
  acquirer_start_price : ℚ
  initial_probability : ℚ
  sensitivity_multiplier : ℚ
  industry : String
deriving DecidableEq, Repr

/-- The static deal table config.py `DEALS`. -/
def DEALS : List (String × DealConfig) :=
  [ ("D1", { deal_id := "D1", target_ticker := "TGX", acquirer_ticker := "PHR",
             structure_kind := .all_cash, cash_component := 50.0, exchange_ratio := 0.0,
             target_start_price := 43.70, acquirer_start_price := 47.50,
             initial_probability := 0.70, sensitivity_multiplier := 1.00,
             industry := "Pharmaceuticals" }),
    ("D2", { deal_id := "D2", target_ticker := "BYL", acquirer_ticker := "CLD",
             structure_kind := .stock_for_stock, cash_component := 0.0, exchange_ratio := 0.75,
             target_start_price := 43.50, acquirer_start_price := 79.30,
             initial_probability := 0.55, sensitivity_multiplier := 1.05,
             industry := "Cloud Software" }),
    ("D3", { deal_id := "D3", target_ticker := "GGD", acquirer_ticker := "PNR",
             structure_kind := .mixed, cash_component := 33.0, exchange_ratio := 0.20,
             target_start_price := 31.50, acquirer_start_price := 59.80,
             initial_probability := 0.50, sensitivity_multiplier := 1.10,
             industry := "Energy / Infrastructure" }),
    ("D4", { deal_id := "D4", target_ticker := "FSR", acquirer_ticker := "ATB",
             structure_kind := .all_cash, cash_component := 40.0, exchange_ratio := 0.0,
             target_start_price := 30.50, acquirer_start_price := 62.20,
             initial_probability := 0.38, sensitivity_multiplier := 1.30,
             industry := "Banking" }),
    ("D5", { deal_id := "D5", target_ticker := "SPK", acquirer_ticker := "EEC",
             structure_kind := .stock_for_stock, cash_component := 0.0, exchange_ratio := 1.20,
             target_start_price := 52.80, acquirer_start_price := 48.00,
             initial_probability := 0.45, sensitivity_multiplier := 1.15,
             industry := "Renewable Energy" }) ]

/-! News-impact lookup tables from config.py. The Python dicts are read with
`.get(..., default)`; the functions below build the default in. -/

/-- config.py `BASELINE_IMPACT` with the `.get(..., 0.0)` default of
compute_delta_p built in. -/
def BASELINE_IMPACT (direction severity : String) : ℚ :=
  if direction = "positive" then
    if severity = "small" then 0.03
    else if severity = "medium" then 0.07
    else if severity = "large" then 0.14
    else 0
  else if direction = "negative" then
    if severity = "small" then -0.04
    else if severity = "medium" then -0.09
    else if severity = "large" then -0.18
    else 0
  else 0

/-- config.py `AMBIGUOUS_RANGE` with the `.get(..., (0.0, 0.0))` default. -/
def AMBIGUOUS_RANGE (severity : String) : ℚ × ℚ :=
  if severity = "small" then (-0.03, 0.03)
  else if severity = "medium" then (-0.05, 0.05)
  else if severity = "large" then (-0.07, 0.07)
  else (0, 0)

/-- config.py `CATEGORY_MULTIPLIERS` with the `.get(..., 1.0)` default. -/
def CATEGORY_MULTIPLIERS (category : String) : ℚ :=
  if category = "REG" then 1.25
  else if category = "FIN" then 1.00
  else if category = "SHR" then 0.90
  else if category = "ALT" then 1.40
  else if category = "PRC" then 0.70
  else 1

/-- models/probability.py `NewsImpact`. -/
structure NewsImpact where
  deal_id : String
  category : String
  direction : String
  severity : String
  delta_p : ℚ
  raw_headline : String
  tick : ℤ
deriving DecidableEq, Repr

/-- models/deal.py `DealState`. -/
structure DealState where
  config : DealConfig
  probability : ℚ
  standalone_value : ℚ
  target_price : ℚ := 0
  acquirer_price : ℚ := 0
  target_bid : ℚ := 0
  target_ask : ℚ := 0
  acquirer_bid : ℚ := 0
  acquirer_ask : ℚ := 0
  target_position : ℤ := 0
  acquirer_position : ℤ := 0
  news_history : List NewsImpact := []
  resolved : Bool := false
  resolution : Option String := none
deriving DecidableEq, Repr

/-- models/deal.py `DealState.deal_value_K`: current deal value K from the

structure and the live acquirer price (falling back to the opening acquirer
price when the live quote is not positive). -/
def deal_value_K (d : DealState) : ℚ :=
  match d.config.structure_kind with
  | .all_cash => d.config.cash_component
  | .stock_for_stock =>
      d.config.exchange_ratio *
        (if d.acquirer_price > 0 then d.acquirer_price else d.config.acquirer_start_price)
  | .mixed =>
      d.config.cash_component + d.config.exchange_ratio *
        (if d.acquirer_price > 0 then d.acquirer_price else d.config.acquirer_start_price)

/-- models/deal.py `DealState.intrinsic_target_price`: P* = p·K + (1−p)·V. -/
def intrinsic_target_price (d : DealState) : ℚ :=
  d.probability * deal_value_K d + (1 - d.probability) * d.standalone_value

/-- models/deal.py `DealState.target_mispricing`. -/
def target_mispricing (d : DealState) : ℚ :=
  if d.target_price ≤ 0 then 0 else intrinsic_target_price d - d.target_price

/-- models/deal.py `DealState.target_mispricing_pct`. -/
def target_mispricing_pct (d : DealState) : ℚ :=
  if d.target_price ≤ 0 then 0 else target_mispricing d / d.target_price * 100

/-- models/deal.py `DealState.spread_to_deal`. -/
def spread_to_deal (d : DealState) : ℚ :=
  if d.target_price ≤ 0 then 0 else (deal_value_K d - d.target_price) / d.target_price

/-- models/deal.py `DealState.ideal_hedge_ratio`. -/
def ideal_hedge_ratio (d : DealState) : ℚ :=
  if d.config.structure_kind = .all_cash then 0 else d.config.exchange_ratio

/-- models/deal.py `compute_standalone_value`: V = (P0 − p0·K0)/(1 − p0) with
K0 the deal value at the opening acquirer price, degenerating to P0 when
p0 ≥ 1. -/
def compute_standalone_value (config : DealConfig) : ℚ :=
  let p0 := config.initial_probability
  let P0 := config.target_start_price
  let K0 :=
    match config.structure_kind with
    | .all_cash => config.cash_component
    | .stock_for_stock => config.exchange_ratio * config.acquirer_start_price
    | .mixed => config.cash_component + config.exchange_ratio * config.acquirer_start_price
  if p0 ≥ 1 then P0 else (P0 - p0 * K0) / (1 - p0)

/-- models/deal.py `initialize_all_deals`: one `DealState` per configured deal,
with the standalone value computed once and stored. -/
def initialize_all_deals : List (String × DealState) :=
  DEALS.map (fun p =>
    (p.1, { config := p.2,
            probability := p.2.initial_probability,
            standalone_value := compute_standalone_value p.2,
            target_price := p.2.target_start_price,
            acquirer_price := p.2.acquirer_start_price }))

/-! models/probability.py -/

/-- models/probability.py `ProbabilityTracker`: running per-deal probabilities
and per-deal impact history. -/
structure ProbabilityTracker where
  probabilities : List (String × ℚ)
  history : List (String × List NewsImpact)
deriving DecidableEq, Repr

/-- models/probability.py `ProbabilityTracker.apply_news`: clamp the updated
probability into [0,1] and record the impact; unknown deal ids leave the
tracker unchanged and return 0.0. (Python would raise a KeyError appending to
a missing history key; the constructor seeds history with the same keys as
probabilities, and the history list affects no probability.) -/
def apply_news (t : ProbabilityTracker) (impact : NewsImpact) : ProbabilityTracker × ℚ :=
  match alookup t.probabilities impact.deal_id with
  | none => (t, 0)
  | some old_p =>
      let new_p := max 0 (min 1 (old_p + impact.delta_p))
      ({ probabilities := aset t.probabilities impact.deal_id new_p,
         history := aset t.history impact.deal_id
           ((alookup t.history impact.deal_id).getD [] ++ [impact]) },
       new_p)

/-- models/probability.py `ProbabilityTracker.get_probability`. -/
def get_probability (t : ProbabilityTracker) (deal_id : String) : ℚ :=
  (alookup t.probabilities deal_id).getD 0

/-- models/probability.py `ProbabilityTracker.mark_resolved`: force the
probability to 1.0 (completed) or 0.0 (failed); dict assignment inserts the
key if absent. -/
def mark_resolved (t : ProbabilityTracker) (deal_id : String) (completed : Bool) :
    ProbabilityTracker :=
  { t with probabilities := aset t.probabilities deal_id (if completed then 1 else 0) }

/-- models/probability.py `compute_delta_p`:
delta_p = baseline_impact × category_multiplier × deal_sensitivity, with the
midpoint of the ambiguous range (or the caller's nonzero estimate) as the
baseline for ambiguous direction; 0.0 for an unknown deal id. -/
def compute_delta_p (deal_id category direction severity : String)
    (ambiguous_estimate : ℚ := 0) : ℚ :=
  match alookup DEALS deal_id with
  | none => 0
  | some deal_cfg =>
      let baseline :=
        if direction = "ambiguous" then
          let r := AMBIGUOUS_RANGE severity
          if ambiguous_estimate ≠ 0 then ambiguous_estimate else (r.1 + r.2) / 2
        else BASELINE_IMPACT direction severity
      baseline * CATEGORY_MULTIPLIERS category * deal_cfg.sensitivity_multiplier

/-! state/market_state.py -/

/-- state/market_state.py `TradeRecommendation`. -/
structure TradeRecommendation where
  action : String
  ticker : String
  quantity : ℤ
  price : Option ℚ := none
  order_type : String := "LIMIT"
  reason : String := ""
  urgency : String := "LOW"
  deal_id : String := ""
  expected_profit : ℚ := 0
  is_hedge_leg : Bool := false
deriving DecidableEq, Repr

/-- One security's entry of the `price_data` dict passed to `update_prices`:
the Python code reads the keys "last", "bid" and "ask" with `.get` defaults,
so each may be absent. -/
structure PriceEntry where
  last : Option ℚ := none
  bid : Option ℚ := none
  ask : Option ℚ := none
deriving DecidableEq, Repr

/-- state/market_state.py `MarketState`, restricted to the fields its five
mutating operations read or write; the omitted bookkeeping fields
(open_orders, nlv, news logs, callbacks, active_recommendations,
_last_recompute_version) are neither read nor written by these operations.
The probability tracker is modelled as always present, matching every state
after `initialize()`. -/
structure MarketState where
  current_tick : ℤ := 0
  current_period : ℤ := 1
  case_status : String := "STOPPED"
  deals : List (String × DealState) := []
  prices : List (String × PriceEntry) := []
  positions : List (String × ℤ) := []
  news_version : ℕ := 0
  market_version : ℕ := 0
  position_version : ℕ := 0
  probability_tracker : ProbabilityTracker := ⟨[], []⟩
deriving DecidableEq, Repr

/-- Gross exposure of a position table: `sum(abs(p) for p in d.values())`. -/
def gross_table (l : List (String × ℤ)) : ℤ :=
  (l.map (fun p => |p.2|)).sum

/-- state/market_state.py `MarketState.gross_position`: sum of absolute
positions across all securities. -/
def gross_position (st : MarketState) : ℤ :=
  gross_table st.positions

/-- state/market_state.py `MarketState.net_position`. -/
def net_position (st : MarketState) (ticker : String) : ℤ :=
  posGet st.positions ticker

/-- state/market_state.py `MarketState.ticks_remaining`. -/
def ticks_remaining (st : MarketState) : ℤ :=
  max 0 (HEAT_DURATION_TICKS - st.current_tick)

/-- Each mutating operation returns the new state together with the list of
change notifications fired after the locked mutation completes (the names
passed to `_fire_event`); an empty list means the operation fires none. -/
abbrev MStep := MarketState × List String

/-- state/market_state.py `MarketState.update_tick`: sets time and case
status; increments no version counter and fires no event. -/
def update_tick (tick period : ℤ) (status : String) (st : MarketState) : MStep :=
  ({ st with current_tick := tick, current_period := period, case_status := status }, [])

/-- Price propagation of `update_prices` for one deal: read last/bid/ask for
the target and acquirer tickers when present in the price table. -/
def propagate_prices (price_data : List (String × PriceEntry)) (deal : DealState) :
    DealState :=
  let d1 :=
    match alookup price_data deal.config.target_ticker with
    | some pe => { deal with target_price := pe.last.getD deal.target_price,
                             target_bid := pe.bid.getD 0,
                             target_ask := pe.ask.getD 0 }
    | none => deal
  match alookup price_data d1.config.acquirer_ticker with
  | some pe => { d1 with acquirer_price := pe.last.getD d1.acquirer_price,
                         acquirer_bid := pe.bid.getD 0,
                         acquirer_ask := pe.ask.getD 0 }
  | none => d1

/-- state/market_state.py `MarketState.update_prices`: store the price table,
propagate to every deal, increment the market version, then fire
MARKET_UPDATE. -/
def update_prices (price_data : List (String × PriceEntry)) (st : MarketState) : MStep :=
  ({ st with prices := price_data,
             deals := st.deals.map (fun p => (p.1, propagate_prices price_data p.2)),
             market_version := st.market_version + 1 },
   ["MARKET_UPDATE"])

/-- state/market_state.py `MarketState.update_positions`: store the position
table, propagate both legs to every deal, increment the position version; no
event is fired. -/
def update_positions (positions : List (String × ℤ)) (st : MarketState) : MStep :=
  ({ st with positions := positions,
             deals := st.deals.map (fun p =>
               (p.1, { p.2 with
                         target_position := posGet positions p.2.config.target_ticker,
                         acquirer_position := posGet positions p.2.config.acquirer_ticker })),
             position_version := st.position_version + 1 },
   [])

/-- state/market_state.py `MarketState.apply_news_impact`: apply the impact to
the tracker, mirror the new probability into the deal state when the deal is
known, increment the news version, then fire NEWS_IMPACT. -/
def apply_news_impact (impact : NewsImpact) (st : MarketState) : MStep :=
  let r := apply_news st.probability_tracker impact
  let deals' :=
    match alookup st.deals impact.deal_id with
    | some deal => aset st.deals impact.deal_id { deal with probability := r.2 }
    | none => st.deals
  ({ st with probability_tracker := r.1,
             deals := deals',
             news_version := st.news_version + 1 },
   ["NEWS_IMPACT"])

/-- state/market_state.py `MarketState.mark_deal_resolved`: set the resolved
flag, resolution string and terminal probability on the deal, mark the tracker
resolved, increment the news version, then fire DEAL_RESOLVED. -/
def mark_deal_resolved (deal_id : String) (completed : Bool) (st : MarketState) : MStep :=
  let deals' :=
    match alookup st.deals deal_id with
    | some deal =>
        aset st.deals deal_id
          { deal with resolved := true,
                      resolution := some (if completed then "completed" else "failed"),
                      probability := if completed then 1 else 0 }
    | none => st.deals
  ({ st with deals := deals',
             probability_tracker := mark_resolved st.probability_tracker deal_id completed,
             news_version := st.news_version + 1 },
   ["DEAL_RESOLVED"])

/-! strategy/position_manager.py -/

/-- strategy/position_manager.py `PositionManager._adjust_for_limits`: clip a
recommendation's quantity to the max order size, the per-ticker net-limit
headroom in its direction, and the gross-limit headroom, scaling expected
profit proportionally; `none` when the clipped quantity is ≤ 0. -/
def adjust_for_limits (rec : TradeRecommendation) (positions : List (String × ℤ))
    (current_gross : ℤ) : Option TradeRecommendation :=
  let qty1 := min rec.quantity MAX_ORDER_SIZE
  let current_net := posGet positions rec.ticker
  let max_allowed :=
    if rec.action = "BUY" then NET_POSITION_LIMIT - current_net
    else NET_POSITION_LIMIT + current_net
  let qty2 := min qty1 (max 0 max_allowed)
  let qty3 := min qty2 (max 0 (GROSS_POSITION_LIMIT - current_gross))
  if qty3 ≤ 0 then none
  else some { rec with
                quantity := qty3,
                expected_profit := rec.expected_profit * ((qty3 : ℚ) / ((max 1 rec.quantity : ℤ) : ℚ)) }

/-- The simulated-table update of `validate_and_adjust` (lines 54-57): apply
an accepted recommendation to the position table, BUY adding and anything
else subtracting its quantity. -/
def apply_validated (pos : List (String × ℤ)) (r : TradeRecommendation) :
    List (String × ℤ) :=
  aset pos r.ticker
    (posGet pos r.ticker + (if r.action = "BUY" then r.quantity else -r.quantity))

/-- The loop of `PositionManager.validate_and_adjust` over the ranked list,
carrying the simulated position table and the set of seen (ticker, action)
pairs. The Python code carries `simulated_gross` as a variable; it is seeded
with `state.gross_position()` and recomputed from the simulated table after
every accepted recommendation, so it always equals the gross of the carried
table and is computed as such here. -/
def validate_aux : List TradeRecommendation → List (String × ℤ) →
    List (String × String) → List TradeRecommendation
  | [], _, _ => []
  | rec :: rest, sim, seen =>
      if (rec.ticker, rec.action) ∈ seen ∧ rec.urgency ≠ "CRITICAL" then
        validate_aux rest sim seen
      else
        match adjust_for_limits rec sim (gross_table sim) with
        | some adjusted =>
            if adjusted.quantity > 0 then
              adjusted :: validate_aux rest (apply_validated sim adjusted)
                ((rec.ticker, rec.action) :: seen)
            else validate_aux rest sim seen
        | none => validate_aux rest sim seen

/-- strategy/position_manager.py `PositionManager.validate_and_adjust`. -/
def validate_and_adjust (recs : List TradeRecommendation) (st : MarketState) :
    List TradeRecommendation :=
  validate_aux recs st.positions []

/-- strategy/position_manager.py `PositionManager.check_hedge_drift`: per
unresolved non-cash deal, flatten an orphaned hedge with a HIGH/MARKET order,
or emit a MEDIUM/LIMIT rebalance (lot of 100, capped at max order size) when
the acquirer position drifts from −target_position × hedge_ratio by more than
max(10% of |target_position|, 100). The LIMIT rebalance is built without a
price (the `TradeRecommendation` default). -/
def check_hedge_drift (st : MarketState) : List TradeRecommendation :=
  st.deals.flatMap (fun p =>
    let deal := p.2
    if deal.resolved = true ∨ deal.config.structure_kind = .all_cash then []
    else
      let target_pos := deal.target_position
      let acquirer_pos := deal.acquirer_position
      if target_pos = 0 then
        if acquirer_pos ≠ 0 then
          [{ action := if acquirer_pos > 0 then "SELL" else "BUY",
             ticker := deal.config.acquirer_ticker,
             quantity := min |acquirer_pos| MAX_ORDER_SIZE,
             order_type := "MARKET",
             reason := "Close orphaned hedge in " ++ deal.config.deal_id,
             urgency := "HIGH",
             deal_id := p.1,
             is_hedge_leg := true }]
        else []
      else
        let expected_acquirer := -(pyInt ((target_pos : ℚ) * ideal_hedge_ratio deal))
        let drift := acquirer_pos - expected_acquirer
        let tolerance_shares := (|target_pos| : ℚ) * HEDGE_RATIO_TOLERANCE
        if (|drift| : ℚ) ≤ max tolerance_shares 100 then []
        else
          let action := if drift > 0 then "SELL" else "BUY"
          let qty := min |drift| MAX_ORDER_SIZE / 100 * 100
          if qty ≤ 0 then []
          else
            [{ action := action,
               ticker := deal.config.acquirer_ticker,
               quantity := qty,
               order_type := "LIMIT",
               reason := "Hedge rebal " ++ deal.config.deal_id,
               urgency := "MEDIUM",
               deal_id := p.1,
               is_hedge_leg := true }])

/-! strategy/signal_generator.py -/

/-- strategy/signal_generator.py `SignalGenerator._compute_position_size`:
size from mispricing magnitude and probability confidence, capped by max
order size, gross-limit headroom minus a hedge reservation and per-ticker
net-limit headroom, shrunk to MAX_ORDER_SIZE // 4 when the absolute existing
target position exceeds 80% of the per-deal cap, and rounded down to a lot
of 100 (never negative). -/
def compute_position_size (deal : DealState) (st : MarketState) (mispricing : ℚ) : ℤ :=
  let mispricing_pct := |target_mispricing_pct deal| / 100
  let scale := min 1 (mispricing_pct / 0.05)
  let p := deal.probability
  let p_confidence := max p (1 - p)
  let base0 := pyInt (scale * p_confidence * (MAX_POSITION_PER_DEAL : ℚ))
  let base1 := min base0 MAX_ORDER_SIZE
  let headroom_gross := GROSS_POSITION_LIMIT - gross_position st
  let reserve :=
    if ideal_hedge_ratio deal > 0 then pyInt ((base1 : ℚ) * ideal_hedge_ratio deal) else 0
  let base2 := min base1 (max 0 (headroom_gross - reserve))
  let current_net := net_position st deal.config.target_ticker
  let headroom_net :=
    if mispricing > 0 then NET_POSITION_LIMIT - current_net
    else NET_POSITION_LIMIT + current_net
  let base3 := min base2 (max 0 headroom_net)
  let base4 :=
    if (|deal.target_position| : ℚ) > (MAX_POSITION_PER_DEAL : ℚ) * 0.8 then
      min base3 (MAX_ORDER_SIZE / 4)
    else base3
  max 0 (base4 / 100 * 100)

/-- The sizing pipeline of `_compute_position_size` without its final shrink
step (lines 185-187), used to state when that step changes nothing. -/
def compute_position_size_unshrunk (deal : DealState) (st : MarketState)
    (mispricing : ℚ) : ℤ :=
  let mispricing_pct := |target_mispricing_pct deal| / 100
  let scale := min 1 (mispricing_pct / 0.05)
  let p := deal.probability
  let p_confidence := max p (1 - p)
  let base0 := pyInt (scale * p_confidence * (MAX_POSITION_PER_DEAL : ℚ))
  let base1 := min base0 MAX_ORDER_SIZE
  let headroom_gross := GROSS_POSITION_LIMIT - gross_position st
  let reserve :=
    if ideal_hedge_ratio deal > 0 then pyInt ((base1 : ℚ) * ideal_hedge_ratio deal) else 0
  let base2 := min base1 (max 0 (headroom_gross - reserve))
  let current_net := net_position st deal.config.target_ticker
  let headroom_net :=
    if mispricing > 0 then NET_POSITION_LIMIT - current_net
    else NET_POSITION_LIMIT + current_net
  let base3 := min base2 (max 0 headroom_net)
  max 0 (base3 / 100 * 100)

/-- Modelled from the spec: the sizing step "shrunk further if existing
same-direction position already exceeds 80% of the per-deal cap" — the shrink
fires only when the existing target position is in the direction of the new
recommendation (long for a BUY signal, short for a SELL signal). Identical to
`compute_position_size` except for that condition; used to compare the spec's
sentence with the code, which tests `abs(target_position)` instead. -/
def compute_position_size_samedir (deal : DealState) (st : MarketState)
    (mispricing : ℚ) : ℤ :=
  let mispricing_pct := |target_mispricing_pct deal| / 100
  let scale := min 1 (mispricing_pct / 0.05)
  let p := deal.probability
  let p_confidence := max p (1 - p)
  let base0 := pyInt (scale * p_confidence * (MAX_POSITION_PER_DEAL : ℚ))
  let base1 := min base0 MAX_ORDER_SIZE
  let headroom_gross := GROSS_POSITION_LIMIT - gross_position st
  let reserve :=
    if ideal_hedge_ratio deal > 0 then pyInt ((base1 : ℚ) * ideal_hedge_ratio deal) else 0
  let base2 := min base1 (max 0 (headroom_gross - reserve))
  let current_net := net_position st deal.config.target_ticker
  let headroom_net :=
    if mispricing > 0 then NET_POSITION_LIMIT - current_net
    else NET_POSITION_LIMIT + current_net
  let base3 := min base2 (max 0 headroom_net)
  let same_direction_pos :=
    if mispricing > 0 then deal.target_position else -deal.target_position
  let base4 :=
    if (same_direction_pos : ℚ) > (MAX_POSITION_PER_DEAL : ℚ) * 0.8 then
      min base3 (MAX_ORDER_SIZE / 4)
    else base3
  max 0 (base4 / 100 * 100)

/-- strategy/signal_generator.py `SignalGenerator._analyze_deal`: threshold
and spread-safety filters, direction from the mispricing sign, sizing,
urgency tiers, then the target leg and (for stock/mixed deals) the hedge
leg. The report strings carried in `reason` are abbreviated; no claim reads
them. -/
def analyze_deal (deal : DealState) (st : MarketState) : List TradeRecommendation :=
  let cfg := deal.config
  let mispricing := target_mispricing deal
  if |mispricing| < MIN_MISPRICING_THRESHOLD then []
  else
    let spread :=
      if deal.target_ask > 0 ∧ deal.target_bid > 0 then deal.target_ask - deal.target_bid
      else 0
    if spread > 0 ∧ |mispricing| < spread * SPREAD_SAFETY_FACTOR then []
    else
      let target_action := if mispricing > 0 then "BUY" else "SELL"
      let target_price :=
        if mispricing > 0 then
          if deal.target_ask > 0 then deal.target_ask else deal.target_price
        else
          if deal.target_bid > 0 then deal.target_bid else deal.target_price
      let acquirer_action := if mispricing > 0 then "SELL" else "BUY"
      let acquirer_price :=
        if mispricing > 0 then
          if deal.acquirer_bid > 0 then deal.acquirer_bid else deal.acquirer_price
        else
          if deal.acquirer_ask > 0 then deal.acquirer_ask else deal.acquirer_price
      let target_qty := compute_position_size deal st mispricing
      if target_qty ≤ 0 then []
      else
        let mispricing_pct := |target_mispricing_pct deal|
        let urgency :=
          if mispricing_pct > 3 then "HIGH"
          else if mispricing_pct > 1.5 then "MEDIUM"
          else "LOW"
        let target_leg : TradeRecommendation :=
          { action := target_action,
            ticker := cfg.target_ticker,
            quantity := target_qty,
            price := if target_price > 0 then some (pyRound2 target_price) else none,
            order_type := if target_price > 0 then "LIMIT" else "MARKET",
            reason := cfg.deal_id ++ ": mispricing entry",
            urgency := urgency,
            deal_id := cfg.deal_id,
            expected_profit :=
              |mispricing| * (target_qty : ℚ) - COMMISSION_PER_SHARE * (target_qty : ℚ) * 2 }
        let hedge_legs :=
          if cfg.structure_kind ≠ .all_cash ∧ ideal_hedge_ratio deal > 0 then
            let hedge_qty := min (pyInt ((target_qty : ℚ) * ideal_hedge_ratio deal)) MAX_ORDER_SIZE
            if hedge_qty > 0 then
              [{ action := acquirer_action,
                 ticker := cfg.acquirer_ticker,
                 quantity := hedge_qty,
                 price := if acquirer_price > 0 then some (pyRound2 acquirer_price) else none,
                 order_type := if acquirer_price > 0 then "LIMIT" else "MARKET",
                 reason := "Hedge " ++ cfg.deal_id,
                 urgency := urgency,
                 deal_id := cfg.deal_id,
                 is_hedge_leg := true }]
            else []
          else []
        target_leg :: hedge_legs

/-- The chunking loop `while qty > 0: chunk = min(qty, MAX_ORDER_SIZE); ...`
shared by `_handle_resolved_deal` and `_closeout_signals`, written with a
fuel argument for structural recursion; each iteration removes chunk ≥ 1 from
a positive `qty`, so `qty.toNat` fuel (supplied by `chunks`) always
suffices. -/
def chunk_qty : ℕ → ℤ → List ℤ
  | 0, _ => []
  | fuel + 1, qty =>
      if qty ≤ 0 then []
      else min qty MAX_ORDER_SIZE :: chunk_qty fuel (qty - min qty MAX_ORDER_SIZE)

/-- Chunk sizes of splitting `qty` into lots of at most MAX_ORDER_SIZE. -/
def chunks (qty : ℤ) : List ℤ := chunk_qty qty.toNat qty

/-- strategy/signal_generator.py `SignalGenerator._handle_resolved_deal`:
CRITICAL MARKET closing legs for both legs of a resolved deal, chunked at the
max order size. -/
def handle_resolved_deal (deal : DealState) : List TradeRecommendation :=
  (if deal.target_position ≠ 0 then
     (chunks |deal.target_position|).map (fun chunk =>
       { action := if deal.target_position > 0 then "SELL" else "BUY",
         ticker := deal.config.target_ticker,
         quantity := chunk,
         order_type := "MARKET",
         reason := deal.config.deal_id ++ " RESOLVED - close target",
         urgency := "CRITICAL",
         deal_id := deal.config.deal_id })
   else []) ++
  (if deal.acquirer_position ≠ 0 then
     (chunks |deal.acquirer_position|).map (fun chunk =>
       { action := if deal.acquirer_position > 0 then "SELL" else "BUY",
         ticker := deal.config.acquirer_ticker,
         quantity := chunk,
         order_type := "MARKET",
         reason := deal.config.deal_id ++ " RESOLVED - close hedge",
         urgency := "CRITICAL",
         deal_id := deal.config.deal_id,
         is_hedge_leg := true })
   else [])

/-- strategy/signal_generator.py `SignalGenerator._closeout_signals`: once
ticks_remaining ≤ URGENCY_CLOSE_TICKS, flatten every nonzero position,
HIGH/LIMIT at aggressive prices outside the critical window and
CRITICAL/MARKET inside it; a LIMIT leg has a price only when the ticker is
quoted in the price table. -/
def closeout_signals (st : MarketState) : List TradeRecommendation :=
  let ticks_left := ticks_remaining st
  if ticks_left > URGENCY_CLOSE_TICKS then []
  else
    let urgency := if ticks_left ≤ URGENCY_CRITICAL_TICKS then "CRITICAL" else "HIGH"
    let order_type := if ticks_left ≤ URGENCY_CRITICAL_TICKS then "MARKET" else "LIMIT"
    st.positions.flatMap (fun tp =>
      let ticker := tp.1
      let position := tp.2
      if position = 0 then []
      else
        let action := if position > 0 then "SELL" else "BUY"
        let price : Option ℚ :=
          if order_type = "LIMIT" then
            match alookup st.prices ticker with
            | some pe =>
                some (pyRound2 (if action = "SELL" then pe.bid.getD 0 * 0.995
                                else pe.ask.getD 0 * 1.005))
            | none => none
          else none
        (chunks |position|).map (fun chunk =>
          { action := action,
            ticker := ticker,
            quantity := chunk,
            price := price,
            order_type := order_type,
            reason := "CLOSEOUT",
            urgency := urgency }))

/-- Urgency rank used by the final sort: CRITICAL > HIGH > MEDIUM > LOW. -/
def urgency_rank (u : String) : ℕ :=
  if u = "CRITICAL" then 0
  else if u = "HIGH" then 1
  else if u = "MEDIUM" then 2
  else 3

/-- Stable insertion step for sorting by urgency rank. -/
def insert_by_urgency (r : TradeRecommendation) : List TradeRecommendation →
    List TradeRecommendation
  | [] => [r]
  | x :: xs =>
      if urgency_rank x.urgency ≤ urgency_rank r.urgency then x :: insert_by_urgency r xs
      else r :: x :: xs

/-- Stable sort by urgency rank; Python's `list.sort` is stable, and any two
stable sorts with the same key agree, so insertion sort is a faithful
model. -/
def sort_by_urgency (l : List TradeRecommendation) : List TradeRecommendation :=
  l.foldr insert_by_urgency []

/-- strategy/signal_generator.py `SignalGenerator.generate_signals`: resolved
deals yield closing legs, unresolved deals are analyzed, end-of-heat closeout
signals are appended, and the result is sorted by urgency. -/
def generate_signals (st : MarketState) : List TradeRecommendation :=
  sort_by_urgency
    ((st.deals.flatMap (fun p =>
        if p.2.resolved then handle_resolved_deal p.2 else analyze_deal p.2 st)) ++
      closeout_signals st)

/-! strategy/order_executor.py -/

/-- Outcome of one `submit_order` call, as `_execute_single` inspects it:
a dict with an order id, a rate-limit signal with a suggested wait, or a
falsy/failed result. -/
inductive SubmitResult where
  | success (order_id : ℤ)
  | rateLimited (wait : ℚ)
  | failed
deriving DecidableEq, Repr

/-- Arguments of one `submit_order` call made by the executor. -/
structure SubmittedOrder where
  ticker : String
  order_type : String
  quantity : ℤ
  action : String
  price : Option ℚ
deriving DecidableEq, Repr

/-- The chunking loop of `OrderExecutor._execute_single`, with the exchange
modelled as a response oracle indexed by submission count. Every
`submit_order` call is recorded, price passed exactly for LIMIT orders; a
rate-limit signal or a failed submission breaks the loop (no in-place retry).
The fuel argument makes the recursion structural; each successful chunk is
≥ 1, so `remaining.toNat` fuel (supplied by `execute_single`) suffices. -/
def execute_single_aux (rec : TradeRecommendation) (resp : ℕ → SubmitResult) :
    ℕ → ℤ → ℕ → List SubmittedOrder
  | 0, _, _ => []
  | fuel + 1, remaining, idx =>
      if remaining ≤ 0 then []
      else
        let chunk := min remaining MAX_ORDER_SIZE
        let ord : SubmittedOrder :=
          { ticker := rec.ticker,
            order_type := rec.order_type,
            quantity := chunk,
            action := rec.action,
            price := if rec.order_type = "LIMIT" then rec.price else none }
        match resp idx with
        | .success _ => ord :: execute_single_aux rec resp fuel (remaining - chunk) (idx + 1)
        | .rateLimited _ => [ord]
        | .failed => [ord]

/-- strategy/order_executor.py `OrderExecutor._execute_single`: the
`submit_order` calls made for one recommendation. -/
def execute_single (rec : TradeRecommendation) (resp : ℕ → SubmitResult) :
    List SubmittedOrder :=
  execute_single_aux rec resp rec.quantity.toNat rec.quantity 0

/-! Concrete inputs used by witnesses and counterexamples, and auxiliary
definitions used by the theorems below. -/

/-- Every entry of a position table is within the per-ticker net limit. -/
def net_ok (l : List (String × ℤ)) : Prop :=
  ∀ pr ∈ l, |pr.2| ≤ NET_POSITION_LIMIT

instance (l : List (String × ℤ)) : Decidable (net_ok l) := by
  unfold net_ok
  infer_instance

/-- Concrete state for the C1 witness: one ticker near its net limit. -/
def c1_state : MarketState := { positions := [("TGX", 49000)] }

/-- Concrete recommendation list for the C1 witness: a BUY that must be
clipped from 5000 to the 1000 shares of remaining net headroom. -/
def c1_recs : List TradeRecommendation :=
  [{ action := "BUY", ticker := "TGX", quantity := 5000 }]

/-- A call against the probability tracker: `apply_news` or `mark_resolved`. -/
inductive TrackerOp where
  | applyNewsOp (impact : NewsImpact)
  | markResolvedOp (deal_id : String) (completed : Bool)
deriving DecidableEq, Repr

/-- Run one tracker call. -/
def run_tracker_op (t : ProbabilityTracker) : TrackerOp → ProbabilityTracker
  | .applyNewsOp impact => (apply_news t impact).1
  | .markResolvedOp d c => mark_resolved t d c

/-- Run a sequence of tracker calls in order. -/
def run_tracker_ops (t : ProbabilityTracker) (ops : List TrackerOp) : ProbabilityTracker :=
  ops.foldl run_tracker_op t

/-- All stored probabilities lie in [0,1]. -/
def probs_in_unit (t : ProbabilityTracker) : Prop :=
  ∀ pr ∈ t.probabilities, 0 ≤ pr.2 ∧ pr.2 ≤ 1

/-- Concrete tracker for the C2 witness. -/
def c2_tracker : ProbabilityTracker := ⟨[("D1", 1/2)], [("D1", [])]⟩

/-- Concrete call sequence for the C2 witness: one huge positive delta, then a
resolution. -/
def c2_ops : List TrackerOp :=
  [ .applyNewsOp { deal_id := "D1", category := "REG", direction := "positive",
                   severity := "large", delta_p := 5, raw_headline := "x", tick := 0 },
    .markResolvedOp "D1" false ]

/-- Concrete tracker for the C3 counterexample. -/
def c3_tracker : ProbabilityTracker := ⟨[("D1", 7/10)], [("D1", [])]⟩

/-- Concrete impact for the C3 counterexample: delta_p = −0.5 after the deal
was resolved as completed. -/
def c3_imp : NewsImpact :=
  { deal_id := "D1", category := "REG", direction := "negative",
    severity := "large", delta_p := -(1/2), raw_headline := "x", tick := 0 }

/-- Concrete state for the C4 counterexample: a fresh `MarketState` with all
three version counters at 0. -/
def c4_state : MarketState := {}

/-- The `DealState` built for one deal by `initialize_all_deals`. -/
def initial_deal_state (cfg : DealConfig) : DealState :=
  { config := cfg,
    probability := cfg.initial_probability,
    standalone_value := compute_standalone_value cfg,
    target_price := cfg.target_start_price,
    acquirer_price := cfg.acquirer_start_price }

/-- Concrete config for the C5 witness: the D1 table row. -/
def c5_cfg : DealConfig :=
  { deal_id := "D1", target_ticker := "TGX", acquirer_ticker := "PHR",
    structure_kind := .all_cash, cash_component := 50, exchange_ratio := 0,
    target_start_price := 43.7, acquirer_start_price := 47.5,
    initial_probability := 0.7, sensitivity_multiplier := 1,
    industry := "Pharmaceuticals" }

/-- The D4 table row, as configured in config.py. -/
def c6_d4_cfg : DealConfig :=
  { deal_id := "D4", target_ticker := "FSR", acquirer_ticker := "ATB",
    structure_kind := .all_cash, cash_component := 40, exchange_ratio := 0,
    target_start_price := 30.5, acquirer_start_price := 62.2,
    initial_probability := 0.38, sensitivity_multiplier := 1.3,
    industry := "Banking" }

/-- Tracker holding D4 at its initial probability 0.38. -/
def c6_d4_tracker : ProbabilityTracker := ⟨[("D4", 0.38)], [("D4", [])]⟩

/-- A REG/positive/medium impact on D4, with delta_p computed exactly as the
news pipeline computes it. -/
def c6_d4_impact : NewsImpact :=
  { deal_id := "D4", category := "REG", direction := "positive",
    severity := "medium",
    delta_p := compute_delta_p "D4" "REG" "positive" "medium",
    raw_headline := "x", tick := 0 }

/-- Concrete deal for the C7 counterexample: D1 at probability 1 (so P* = 50),
market price 40 (mispricing +10 ⇒ BUY), with an existing SHORT position of
9000 shares — opposite to the BUY direction. -/
def c7_deal : DealState :=
  { config := c5_cfg, probability := 1, standalone_value := 29,
    target_price := 40, target_position := -9000 }

/-- Concrete market state for the C7 counterexample, positions matching the
deal's short leg. -/
def c7_state : MarketState := { positions := [("TGX", -9000)] }

/-- The D2 table row, as configured in config.py. -/
def c8_d2_cfg : DealConfig :=
  { deal_id := "D2", target_ticker := "BYL", acquirer_ticker := "CLD",
    structure_kind := .stock_for_stock, cash_component := 0, exchange_ratio := 0.75,
    target_start_price := 43.5, acquirer_start_price := 79.3,
    initial_probability := 0.55, sensitivity_multiplier := 1.05,
    industry := "Cloud Software" }

/-- Market state exhibiting C8: D2 unresolved, long 1000 targets, no acquirer
hedge — a drift of 750 shares, beyond the 100-share tolerance. -/
def c8_state : MarketState :=
  { deals := [("D2", { config := c8_d2_cfg, probability := 0.55, standalone_value := 0,
                       target_position := 1000, acquirer_position := 0 })] }

/-- The rebalance recommendation the code produces in `c8_state`. -/
def c8_rec : TradeRecommendation :=
  { action := "SELL", ticker := "CLD", quantity := 700, order_type := "LIMIT",
    reason := "Hedge rebal D2", urgency := "MEDIUM", deal_id := "D2",
    is_hedge_leg := true }

/-- Concrete recommendation for the C9 witness: 12,000 shares, which must be
chunked as 5000 + 5000 + 2000. -/
def c9_rec : TradeRecommendation :=
  { action := "BUY", ticker := "TGX", quantity := 12000, order_type := "MARKET" }

/-- Concrete deal for the C10 witness: D1 config with no market price yet. -/
def c10_deal : DealState :=
  { config := c5_cfg, probability := 0.7, standalone_value := 29 }

/-! Association-list lemmas. -/

theorem alookup_aset_self {α : Type} (l : List (String × α)) (k : String) (v : α) :
    alookup (aset l k v) k = some v := by
  induction l with
  | nil => simp [aset, alookup]
  | cons p rest ih =>
      by_cases h : p.1 = k
      · simp [aset, h, alookup]
      · simp [aset, h, alookup, ih]

theorem alookup_aset_ne {α : Type} (l : List (String × α)) (k t : String) (v : α)
    (h : k ≠ t) : alookup (aset l k v) t = alookup l t := by
  induction l with
  | nil => simp [aset, alookup, h]
  | cons p rest ih =>
      by_cases hp : p.1 = k
      · simp [aset, hp, alookup, h]
      · simp only [aset, hp, if_false, alookup]
        by_cases hpt : p.1 = t <;> simp [hpt, ih]

theorem mem_aset {α : Type} (l : List (String × α)) (k : String) (v : α) :
    ∀ pr ∈ aset l k v, pr = (k, v) ∨ pr ∈ l := by
  induction l with
  | nil => intro pr hpr; simp [aset] at hpr; exact Or.inl hpr
  | cons p rest ih =>
      intro pr hpr
      by_cases h : p.1 = k
      · simp only [aset, h, if_true, List.mem_cons] at hpr
        rcases hpr with h1 | h1
        · exact Or.inl h1
        · exact Or.inr (List.mem_cons_of_mem _ h1)
      · simp only [aset, h, if_false, List.mem_cons] at hpr
        rcases hpr with h1 | h1
        · exact Or.inr (by simp [h1])
        · rcases ih pr h1 with h2 | h2
          · exact Or.inl h2
          · exact Or.inr (List.mem_cons_of_mem _ h2)

theorem alookup_mem {α : Type} (l : List (String × α)) (k : String) (v : α)
    (h : alookup l k = some v) : (k, v) ∈ l := by
  induction l with
  | nil => simp [alookup] at h
  | cons p rest ih =>
      by_cases hp : p.1 = k
      · simp only [alookup, hp, if_true, Option.some.injEq] at h
        simp only [List.mem_cons]
        left
        rw [← hp, ← h]
      · simp only [alookup, hp, if_false] at h
        exact List.mem_cons_of_mem _ (ih h)

theorem gross_aset (l : List (String × ℤ)) (t : String) (v : ℤ) :
    gross_table (aset l t v) = gross_table l - |posGet l t| + |v| := by
  induction l with
  | nil => simp [gross_table, aset, posGet, alookup]
  | cons p rest ih =>
      by_cases h : p.1 = t
      · simp [gross_table, aset, h, posGet, alookup]
        ring
      · simp only [aset, h, if_false, gross_table, List.map_cons, List.sum_cons,
          posGet, alookup] at *
        rw [ih]
        ring

theorem posGet_aset_self (l : List (String × ℤ)) (k : String) (v : ℤ) :
    posGet (aset l k v) k = v := by
  simp [posGet, alookup_aset_self]

/-- Every position value a table can report is either an entry's value or 0. -/
theorem posGet_bound (l : List (String × ℤ)) (t : String)
    (h : ∀ pr ∈ l, |pr.2| ≤ NET_POSITION_LIMIT) : |posGet l t| ≤ NET_POSITION_LIMIT := by
  unfold posGet
  cases hl : alookup l t with
  | none => simp [NET_POSITION_LIMIT]
  | some v => simpa using h (t, v) (alookup_mem l t v hl)

/-! Claim C1: the position-manager gate preserves both hard limits at every
prefix of its output. -/

/-- Arithmetic core of the net-limit preservation for a BUY step. -/
theorem net_step_buy (x q N : ℤ) (hx1 : -N ≤ x) (hx2 : x ≤ N) (h2 : 0 < q)
    (h : q ≤ 0 ⊔ (N - x)) : |x + q| ≤ N := by
  rw [abs_le]; omega

/-- Arithmetic core of the net-limit preservation for a SELL step. -/
theorem net_step_sell (x q N : ℤ) (hx1 : -N ≤ x) (hx2 : x ≤ N) (h2 : 0 < q)
    (h : q ≤ 0 ⊔ (N + x)) : |x + -q| ≤ N := by
  rw [abs_le]; omega

/-- Arithmetic core of the gross-limit preservation: a step of absolute size
`q` within the gross headroom keeps the gross within the limit. -/
theorem gross_step (x q g G : ℤ) (h2 : 0 < q) (h : q ≤ 0 ⊔ (G - g)) (d : ℤ)
    (hd : d = q ∨ d = -q) : g - |x| + |x + d| ≤ G := by
  have h3 := abs_add x d
  have h4 : |d| = q := by
    rcases hd with rfl | rfl
    · exact abs_of_pos h2
    · rw [abs_neg]; exact abs_of_pos h2
  have h5 := abs_nonneg x
  omega

/-- One step of the validation gate: an accepted (clipped) recommendation,
applied to a table that satisfies both limits, yields a table that still
satisfies both limits. -/
theorem adjust_for_limits_spec (rec a : TradeRecommendation) (sim : List (String × ℤ))
    (hnet : net_ok sim) (hgross : gross_table sim ≤ GROSS_POSITION_LIMIT)
    (h : adjust_for_limits rec sim (gross_table sim) = some a) :
    net_ok (apply_validated sim a) ∧
      gross_table (apply_validated sim a) ≤ GROSS_POSITION_LIMIT := by
  obtain ⟨hx1, hx2⟩ := abs_le.mp (posGet_bound sim rec.ticker hnet)
  by_cases hact : rec.action = "BUY"
  · simp only [adjust_for_limits, hact, if_true, eq_self_iff_true] at h
    split at h
    · simp at h
    · rename_i hq
      push_neg at hq
      injection h with h
      subst h
      simp only [apply_validated, hact, if_true, eq_self_iff_true]
      constructor
      · intro pr hpr
        rcases mem_aset _ _ _ pr hpr with hp | hp
        · subst hp
          exact net_step_buy _ _ _ hx1 hx2 hq (by omega)
        · exact hnet pr hp
      · rw [gross_aset]
        exact gross_step _ _ _ _ hq (by omega) _ (Or.inl rfl)
  · simp only [adjust_for_limits, hact, if_false] at h
    split at h
    · simp at h
    · rename_i hq
      push_neg at hq
      injection h with h
      subst h
      simp only [apply_validated, hact, if_false]
      constructor
      · intro pr hpr
        rcases mem_aset _ _ _ pr hpr with hp | hp
        · subst hp
          exact net_step_sell _ _ _ hx1 hx2 hq (by omega)
        · exact hnet pr hp
      · rw [gross_aset]
        exact gross_step _ _ _ _ hq (by omega) _ (Or.inr rfl)

/-- The validation loop, started from a table within both limits, keeps every
prefix of its output within both limits when that prefix is applied in
order. -/
theorem validate_aux_prefix (recs : List TradeRecommendation) :
    ∀ (sim : List (String × ℤ)) (seen : List (String × String)),
      net_ok sim → gross_table sim ≤ GROSS_POSITION_LIMIT →
      ∀ k, net_ok (((validate_aux recs sim seen).take k).foldl apply_validated sim) ∧
        gross_table (((validate_aux recs sim seen).take k).foldl apply_validated sim) ≤
          GROSS_POSITION_LIMIT := by
  induction recs with
  | nil =>
      intro sim seen hn hg k
      simpa [validate_aux] using ⟨hn, hg⟩
  | cons rec rest ih =>
      intro sim seen hn hg k
      rw [validate_aux]
      split
      · exact ih sim seen hn hg k
      · split
        · rename_i a heq
          split
          · cases k with
            | zero => simpa using ⟨hn, hg⟩
            | succ k' =>
                have hstep := adjust_for_limits_spec rec a sim hn hg heq
                simpa [List.take_succ_cons, List.foldl_cons] using
                  ih (apply_validated sim a) ((rec.ticker, rec.action) :: seen)
                    hstep.1 hstep.2 k'
          · exact ih sim seen hn hg k
        · exact ih sim seen hn hg k

/-- C1: for every recommendation list and every starting position table whose
per-ticker net positions are within NET_POSITION_LIMIT and whose gross
exposure is within GROSS_POSITION_LIMIT, applying the output of
`validate_and_adjust` in order keeps, at every prefix, the absolute net
position of every ticker within NET_POSITION_LIMIT (50,000) and the gross
exposure within GROSS_POSITION_LIMIT (100,000). -/
theorem C1_validated_prefixes_respect_limits
    (recs : List TradeRecommendation) (st : MarketState)
    (hnet : net_ok st.positions)
    (hgross : gross_table st.positions ≤ GROSS_POSITION_LIMIT) :
    ∀ k,
      (∀ t, |posGet (((validate_and_adjust recs st).take k).foldl
          apply_validated st.positions) t| ≤ NET_POSITION_LIMIT) ∧
        gross_table (((validate_and_adjust recs st).take k).foldl
          apply_validated st.positions) ≤ GROSS_POSITION_LIMIT := by
  intro k
  have h := validate_aux_prefix recs st.positions [] hnet hgross k
  exact ⟨fun t => posGet_bound _ t h.1, h.2⟩

theorem C1_witness :
    net_ok c1_state.positions ∧
      gross_table c1_state.positions ≤ GROSS_POSITION_LIMIT ∧
      |posGet (((validate_and_adjust c1_recs c1_state).take 1).foldl
        apply_validated c1_state.positions) "TGX"| ≤ NET_POSITION_LIMIT :=
  ⟨by decide, by decide,
    (C1_validated_prefixes_respect_limits c1_recs c1_state (by decide) (by decide) 1).1 "TGX"⟩

/-! Claim C2: any sequence of tracker calls keeps every stored probability in
[0,1] at every intermediate step. -/

theorem run_tracker_op_preserves (t : ProbabilityTracker) (op : TrackerOp)
    (h : probs_in_unit t) : probs_in_unit (run_tracker_op t op) := by
  cases op with
  | applyNewsOp impact =>
      cases hl : alookup t.probabilities impact.deal_id with
      | none => simpa [run_tracker_op, apply_news, hl] using h
      | some old_p =>
          intro pr hpr
          simp only [run_tracker_op, apply_news, hl] at hpr
          rcases mem_aset _ _ _ pr hpr with hp | hp
          · subst hp
            exact ⟨le_max_left 0 _, max_le zero_le_one (min_le_left 1 _)⟩
          · exact h pr hp
  | markResolvedOp d c =>
      intro pr hpr
      simp only [run_tracker_op, mark_resolved] at hpr
      rcases mem_aset _ _ _ pr hpr with hp | hp
      · subst hp
        cases c <;> norm_num
      · exact h pr hp

theorem run_tracker_ops_preserves (ops : List TrackerOp) :
    ∀ t : ProbabilityTracker, probs_in_unit t → probs_in_unit (run_tracker_ops t ops) := by
  induction ops with
  | nil => intro t h; simpa [run_tracker_ops] using h
  | cons op rest ih =>
      intro t h
      simpa [run_tracker_ops, List.foldl_cons] using
        ih (run_tracker_op t op) (run_tracker_op_preserves t op h)

/-- C2: if every initial probability is in [0,1], then after any finite
sequence of `apply_news` and `mark_resolved` calls — with arbitrary, possibly
large, delta_p values — every stored probability is in [0,1] at every
intermediate step (every prefix of the call sequence). -/
theorem C2_probabilities_stay_in_unit (t : ProbabilityTracker) (ops : List TrackerOp)
    (h : probs_in_unit t) :
    ∀ k, probs_in_unit (run_tracker_ops t (ops.take k)) :=
  fun k => run_tracker_ops_preserves (ops.take k) t h

theorem C2_witness :
    probs_in_unit c2_tracker ∧ probs_in_unit (run_tracker_ops c2_tracker (c2_ops.take 2)) := by
  have hp : probs_in_unit c2_tracker := by
    intro pr hpr
    simp only [c2_tracker, List.mem_singleton] at hpr
    subst hpr
    norm_num
  exact ⟨hp, C2_probabilities_stay_in_unit c2_tracker c2_ops hp 2⟩

/-! Claim C3: `mark_resolved` pins the probability to exactly 1.0/0.0, but a
later `apply_news` for that deal is NOT always a no-op — the tracker has no
resolved guard, so a delta pointing away from the terminal value moves the
probability. The claim is corrected accordingly. -/

/-- C3 counterexample: after `mark_resolved("D1", completed)` the probability
is 1.0, but a subsequent `apply_news` with delta_p = −0.5 moves it to 0.5 —
not a no-op, refuting the claim as stated. -/
theorem C3_counterexample :
    alookup ((apply_news (mark_resolved c3_tracker "D1" true) c3_imp).1).probabilities "D1"
        = some (1/2) ∧
      (1/2 : ℚ) ≠ 1 := by
  constructor
  · have hl : alookup (mark_resolved c3_tracker "D1" true).probabilities "D1" = some 1 := by
      simp [mark_resolved, alookup_aset_self]
    simp only [apply_news, c3_imp, hl]
    rw [alookup_aset_self]
    norm_num [min_def, max_def]
  · norm_num

/-- C3 amended: `mark_resolved(deal, completed)` sets the deal's probability
to exactly 1.0 (completed) or 0.0 (failed); a subsequent `apply_news` call
for that deal leaves the terminal value unchanged when its delta does not
point away from it (delta_p ≥ 0 after completion, delta_p ≤ 0 after failure),
because of clamping — but there is no resolved guard, so an opposite-signed
delta moves the probability (see the counterexample). -/
theorem C3_mark_resolved_terminal (t : ProbabilityTracker) (d : String) (imp : NewsImpact) :
    alookup (mark_resolved t d true).probabilities d = some 1 ∧
      alookup (mark_resolved t d false).probabilities d = some 0 ∧
      (imp.deal_id = d → 0 ≤ imp.delta_p →
        alookup ((apply_news (mark_resolved t d true) imp).1).probabilities d = some 1) ∧
      (imp.deal_id = d → imp.delta_p ≤ 0 →
        alookup ((apply_news (mark_resolved t d false) imp).1).probabilities d = some 0) := by
  refine ⟨by simp [mark_resolved, alookup_aset_self], by simp [mark_resolved, alookup_aset_self],
    ?_, ?_⟩
  · intro hd hdp
    subst hd
    have hl : alookup (mark_resolved t imp.deal_id true).probabilities imp.deal_id
        = some 1 := by simp [mark_resolved, alookup_aset_self]
    simp only [apply_news, hl]
    rw [alookup_aset_self]
    have h1 : min 1 (1 + imp.delta_p) = 1 := min_eq_left (by linarith)
    rw [h1, max_eq_right zero_le_one]
  · intro hd hdp
    subst hd
    have hl : alookup (mark_resolved t imp.deal_id false).probabilities imp.deal_id
        = some 0 := by simp [mark_resolved, alookup_aset_self]
    simp only [apply_news, hl]
    rw [alookup_aset_self]
    have h1 : min 1 (0 + imp.delta_p) = 0 + imp.delta_p := min_eq_right (by linarith)
    rw [h1]
    have h2 : max 0 (0 + imp.delta_p) = 0 := max_eq_left (by linarith)
    rw [h2]

theorem C3_witness :
    (c3_imp.deal_id = "D1" ∧ c3_imp.delta_p ≤ 0) ∧
      alookup ((apply_news (mark_resolved c3_tracker "D1" false) c3_imp).1).probabilities "D1"
        = some 0 :=
  ⟨⟨rfl, by norm_num [c3_imp]⟩,
    (C3_mark_resolved_terminal c3_tracker "D1" c3_imp).2.2.2 rfl (by norm_num [c3_imp])⟩

/-! Claim C4: which operations increment which version counters and fire which
notifications. The claim as stated fails: `update_tick` increments no counter
and fires no notification, and `update_positions` fires none either. -/

/-- C4 counterexample: `update_tick` leaves all three version counters
unchanged (none is incremented) and fires no change notification, refuting
the claim that each of the five mutating operations increments exactly one
counter and fires the notification. -/
theorem C4_counterexample :
    (update_tick 5 1 "ACTIVE" c4_state).1.market_version = 0 ∧
      (update_tick 5 1 "ACTIVE" c4_state).1.news_version = 0 ∧
      (update_tick 5 1 "ACTIVE" c4_state).1.position_version = 0 ∧
      (update_tick 5 1 "ACTIVE" c4_state).2 = [] :=
  ⟨rfl, rfl, rfl, rfl⟩

/-- C4 amended: `update_prices`, `update_positions`, `apply_news_impact` and
`mark_deal_resolved` each increment exactly one of the three version counters
by one (market, position, news and news respectively), leaving the other two
unchanged; `update_tick` increments none. The change notification — fired
with the post-mutation state — is fired exactly once by `update_prices`,
`apply_news_impact` and `mark_deal_resolved`, and never by `update_tick` or
`update_positions`. -/
theorem C4_counters_and_notifications (st : MarketState) (tick period : ℤ)
    (status : String) (price_data : List (String × PriceEntry))
    (positions : List (String × ℤ)) (impact : NewsImpact) (deal_id : String)
    (completed : Bool) :
    ((update_tick tick period status st).1.market_version = st.market_version ∧
      (update_tick tick period status st).1.news_version = st.news_version ∧
      (update_tick tick period status st).1.position_version = st.position_version ∧
      (update_tick tick period status st).2 = []) ∧
    ((update_prices price_data st).1.market_version = st.market_version + 1 ∧
      (update_prices price_data st).1.news_version = st.news_version ∧
      (update_prices price_data st).1.position_version = st.position_version ∧
      (update_prices price_data st).2 = ["MARKET_UPDATE"]) ∧
    ((update_positions positions st).1.position_version = st.position_version + 1 ∧
      (update_positions positions st).1.market_version = st.market_version ∧
      (update_positions positions st).1.news_version = st.news_version ∧
      (update_positions positions st).2 = []) ∧
    ((apply_news_impact impact st).1.news_version = st.news_version + 1 ∧
      (apply_news_impact impact st).1.market_version = st.market_version ∧
      (apply_news_impact impact st).1.position_version = st.position_version ∧
      (apply_news_impact impact st).2 = ["NEWS_IMPACT"]) ∧
    ((mark_deal_resolved deal_id completed st).1.news_version = st.news_version + 1 ∧
      (mark_deal_resolved deal_id completed st).1.market_version = st.market_version ∧
      (mark_deal_resolved deal_id completed st).1.position_version = st.position_version ∧
      (mark_deal_resolved deal_id completed st).2 = ["DEAL_RESOLVED"]) :=
  ⟨⟨rfl, rfl, rfl, rfl⟩, ⟨rfl, rfl, rfl, rfl⟩, ⟨rfl, rfl, rfl, rfl⟩,
    ⟨rfl, rfl, rfl, rfl⟩, ⟨rfl, rfl, rfl, rfl⟩⟩

/-! Claim C5: the standalone value V is computed from the opening conditions,
stored once at initialization, and never changed by any later operation. -/

theorem alookup_map_snd {α β : Type} (l : List (String × α)) (f : α → β) (k : String) :
    alookup (l.map (fun p => (p.1, f p.2))) k = (alookup l k).map f := by
  induction l with
  | nil => simp [alookup]
  | cons p rest ih =>
      by_cases h : p.1 = k <;> simp [alookup, h, ih]

theorem propagate_prices_standalone (pd : List (String × PriceEntry)) (d : DealState) :
    (propagate_prices pd d).standalone_value = d.standalone_value := by
  unfold propagate_prices
  cases h1 : alookup pd d.config.target_ticker <;>
    simp only [h1] <;>
    cases h2 : alookup pd d.config.acquirer_ticker <;>
    simp [h2]

/-- Mapping a standalone-value-preserving function over the deal table
preserves every looked-up standalone value. -/
theorem alookup_deals_map (g : DealState → DealState) (l : List (String × DealState))
    (d : String) (hg : ∀ x, (g x).standalone_value = x.standalone_value) :
    (alookup (l.map (fun p => (p.1, g p.2))) d).map DealState.standalone_value =
      (alookup l d).map DealState.standalone_value := by
  rw [alookup_map_snd]
  cases alookup l d <;> simp [hg]

/-- C5: `compute_standalone_value` returns (P0 − p0·K0)/(1 − p0) for p0 < 1 —
with K0 the deal value of the freshly initialized deal state, i.e. the deal
value at the opening acquirer price for the config's structure — and P0 when
p0 = 1; `initialize_all_deals` stores exactly that value per deal, and none
of the five mutating MarketState operations changes any deal's stored
standalone_value. -/
theorem C5_standalone_value_once (cfg : DealConfig) (st : MarketState) :
    (cfg.initial_probability < 1 →
      compute_standalone_value cfg =
        (cfg.target_start_price -
            cfg.initial_probability * deal_value_K (initial_deal_state cfg)) /
          (1 - cfg.initial_probability)) ∧
    (cfg.initial_probability = 1 →
      compute_standalone_value cfg = cfg.target_start_price) ∧
    (∀ pr ∈ initialize_all_deals, pr.2.standalone_value = compute_standalone_value pr.2.config) ∧
    (∀ tick period status d,
      (alookup (update_tick tick period status st).1.deals d).map DealState.standalone_value =
        (alookup st.deals d).map DealState.standalone_value) ∧
    (∀ pd d,
      (alookup (update_prices pd st).1.deals d).map DealState.standalone_value =
        (alookup st.deals d).map DealState.standalone_value) ∧
    (∀ ps d,
      (alookup (update_positions ps st).1.deals d).map DealState.standalone_value =
        (alookup st.deals d).map DealState.standalone_value) ∧
    (∀ impact d,
      (alookup (apply_news_impact impact st).1.deals d).map DealState.standalone_value =
        (alookup st.deals d).map DealState.standalone_value) ∧
    (∀ deal_id completed d,
      (alookup (mark_deal_resolved deal_id completed st).1.deals d).map
          DealState.standalone_value =
        (alookup st.deals d).map DealState.standalone_value) := by
  refine ⟨?_, ?_, ?_, ?_, ?_, ?_, ?_, ?_⟩
  · intro h
    unfold compute_standalone_value
    rw [if_neg (not_le.mpr h)]
    cases hs : cfg.structure_kind <;>
      simp [deal_value_K, initial_deal_state, hs, ite_self]
  · intro h
    unfold compute_standalone_value
    rw [if_pos (le_of_eq h.symm)]
  · intro pr hpr
    simp only [initialize_all_deals, List.mem_map] at hpr
    obtain ⟨q, hq, rfl⟩ := hpr
    rfl
  · intro tick period status d
    rfl
  · intro pd d
    exact alookup_deals_map (propagate_prices pd) st.deals d (propagate_prices_standalone pd)
  · intro ps d
    exact alookup_deals_map
      (fun ds => { ds with
        target_position := posGet ps ds.config.target_ticker,
        acquirer_position := posGet ps ds.config.acquirer_ticker })
      st.deals d (fun x => rfl)
  · intro impact d
    cases heq : alookup st.deals impact.deal_id with
    | none => simp only [apply_news_impact, heq]
    | some deal =>
        simp only [apply_news_impact, heq]
        by_cases hd : impact.deal_id = d
        · subst hd
          rw [alookup_aset_self, heq]
          rfl
        · rw [alookup_aset_ne _ _ _ _ hd]
  · intro deal_id completed d
    cases heq : alookup st.deals deal_id with
    | none => simp only [mark_deal_resolved, heq]
    | some deal =>
        simp only [mark_deal_resolved, heq]
        by_cases hd : deal_id = d
        · subst hd
          rw [alookup_aset_self, heq]
          rfl
        · rw [alookup_aset_ne _ _ _ _ hd]

theorem C5_witness :
    c5_cfg.initial_probability < 1 ∧
      compute_standalone_value c5_cfg =
        (c5_cfg.target_start_price -
            c5_cfg.initial_probability * deal_value_K (initial_deal_state c5_cfg)) /
          (1 - c5_cfg.initial_probability) :=
  ⟨by norm_num [c5_cfg],
    (C5_standalone_value_once c5_cfg c4_state).1 (by norm_num [c5_cfg])⟩

/-! Claim C6: the two pinned all-cash numeric scenarios (D1 and D4). -/

/-- C6: for the configured all-cash deal D1 (cash=50, p0=0.70, P0=43.70) the
standalone value is exactly 29.00, the deal value K is 50 for every acquirer
price, and the hedge ratio is 0; for the configured all-cash deal D4
(cash=40, p0=0.38, P0=30.50) the standalone value is ≈ 24.68 (within half a
cent), and a REG/positive/medium impact yields
delta_p = 0.07 × 1.25 × 1.30 = 0.11375, so applying it to p = 0.38 gives
0.49375. -/
theorem C6_pinned_scenarios :
    alookup DEALS "D1" = some c5_cfg ∧
      compute_standalone_value c5_cfg = 29 ∧
      (∀ q : ℚ, deal_value_K { initial_deal_state c5_cfg with acquirer_price := q } = 50) ∧
      ideal_hedge_ratio (initial_deal_state c5_cfg) = 0 ∧
      alookup DEALS "D4" = some c6_d4_cfg ∧
      |compute_standalone_value c6_d4_cfg - 24.68| < 0.005 ∧
      compute_delta_p "D4" "REG" "positive" "medium" = 0.07 * 1.25 * 1.30 ∧
      compute_delta_p "D4" "REG" "positive" "medium" = 0.11375 ∧
      (apply_news c6_d4_tracker c6_d4_impact).2 = 0.49375 := by
  refine ⟨?_, ?_, ?_, ?_, ?_, ?_, ?_, ?_, ?_⟩
  · simp only [DEALS, alookup, if_pos]
    norm_num [c5_cfg]
  · norm_num [compute_standalone_value, c5_cfg]
  · intro q
    simp [deal_value_K, initial_deal_state, c5_cfg]
  · simp [ideal_hedge_ratio, initial_deal_state, c5_cfg]
  · simp [DEALS, alookup, c6_d4_cfg]
    norm_num
  · norm_num [compute_standalone_value, c6_d4_cfg, abs_lt]
  · simp [compute_delta_p, DEALS, alookup, BASELINE_IMPACT, CATEGORY_MULTIPLIERS]
    try norm_num
  · simp [compute_delta_p, DEALS, alookup, BASELINE_IMPACT, CATEGORY_MULTIPLIERS]
    try norm_num
  · simp [apply_news, c6_d4_tracker, c6_d4_impact, alookup, compute_delta_p, DEALS,
      BASELINE_IMPACT, CATEGORY_MULTIPLIERS]
    norm_num [min_def, max_def]

/-! Claim C7: when the position-size shrink fires. The code shrinks on
`abs(target_position)` exceeding 80% of the per-deal cap regardless of
direction, not only on a same-direction position; the claim is corrected. -/

/-- C7 counterexample: with a 9000-share short position and a BUY
recommendation (mispricing +10), the existing same-direction (long) position
is 0 ≤ 80% of the cap, yet the code still shrinks the size to
MAX_ORDER_SIZE/4 rounded to a lot (1200); the spec's same-direction rule
would give 5000. The claimed "if and only if" fails at this input. -/
theorem C7_counterexample :
    compute_position_size c7_deal c7_state 10 = 1200 ∧
      compute_position_size_samedir c7_deal c7_state 10 = 5000 ∧
      c7_deal.target_position = -9000 ∧
      target_mispricing c7_deal = 10 := by
  refine ⟨?_, ?_, rfl, ?_⟩
  · simp [compute_position_size, target_mispricing_pct, target_mispricing,
      intrinsic_target_price, deal_value_K, ideal_hedge_ratio, gross_position,
      gross_table, net_position, posGet, alookup, pyInt, c7_deal, c7_state, c5_cfg,
      MAX_POSITION_PER_DEAL, MAX_ORDER_SIZE, GROSS_POSITION_LIMIT, NET_POSITION_LIMIT,
      min_def, max_def]
    norm_num
  · simp [compute_position_size_samedir, target_mispricing_pct, target_mispricing,
      intrinsic_target_price, deal_value_K, ideal_hedge_ratio, gross_position,
      gross_table, net_position, posGet, alookup, pyInt, c7_deal, c7_state, c5_cfg,
      MAX_POSITION_PER_DEAL, MAX_ORDER_SIZE, GROSS_POSITION_LIMIT, NET_POSITION_LIMIT,
      min_def, max_def]
    norm_num
  · norm_num [target_mispricing, intrinsic_target_price, deal_value_K, c7_deal, c5_cfg]

/-- Arithmetic of the final rounding line: the result is a non-negative
multiple of 100. -/
theorem lot_of_100 (b : ℤ) :
    0 ≤ max 0 (b / 100 * 100) ∧ max 0 (b / 100 * 100) % 100 = 0 := by
  refine ⟨le_max_left 0 _, ?_⟩
  rcases le_total (b / 100 * 100) 0 with h | h
  · rw [max_eq_left h]
    rfl
  · rw [max_eq_right h]
    exact Int.mul_emod_left _ _

/-- C7 amended: the extra shrink (capping the size at MAX_ORDER_SIZE/4) is
applied if and only if the ABSOLUTE existing position in the target ticker —
regardless of its direction relative to the new recommendation — exceeds 80%
of MAX_POSITION_PER_DEAL: the size is invariant under flipping the sign of
the existing position, it is capped whenever the absolute position exceeds
the 80% threshold, and it equals the unshrunk pipeline otherwise; the
returned size is always a non-negative multiple of 100. -/
theorem C7_shrink_on_absolute_position (deal : DealState) (st : MarketState) (m : ℚ) :
    (0 ≤ compute_position_size deal st m ∧ compute_position_size deal st m % 100 = 0) ∧
      compute_position_size { deal with target_position := -deal.target_position } st m =
        compute_position_size deal st m ∧
      ((MAX_POSITION_PER_DEAL : ℚ) * 0.8 < (|deal.target_position| : ℚ) →
        compute_position_size deal st m ≤ MAX_ORDER_SIZE / 4) ∧
      ((|deal.target_position| : ℚ) ≤ (MAX_POSITION_PER_DEAL : ℚ) * 0.8 →
        compute_position_size deal st m = compute_position_size_unshrunk deal st m) := by
  have hpct : target_mispricing_pct { deal with target_position := -deal.target_position } =
      target_mispricing_pct deal := by
    simp [target_mispricing_pct, target_mispricing, intrinsic_target_price, deal_value_K]
  have hhr : ideal_hedge_ratio { deal with target_position := -deal.target_position } =
      ideal_hedge_ratio deal := by
    simp [ideal_hedge_ratio]
  refine ⟨⟨(lot_of_100 _).1, (lot_of_100 _).2⟩, ?_, ?_, ?_⟩
  · simp only [compute_position_size, hpct, hhr, Int.cast_neg, abs_neg]
  · intro h
    simp only [compute_position_size, MAX_ORDER_SIZE]
    rw [if_pos h]
    omega
  · intro h
    simp only [compute_position_size, compute_position_size_unshrunk]
    rw [if_neg (not_lt.mpr h)]

theorem C7_witness :
    (MAX_POSITION_PER_DEAL : ℚ) * 0.8 < (|c7_deal.target_position| : ℚ) ∧
      compute_position_size c7_deal c7_state 10 ≤ MAX_ORDER_SIZE / 4 :=
  ⟨by norm_num [c7_deal, MAX_POSITION_PER_DEAL],
    (C7_shrink_on_absolute_position c7_deal c7_state 10).2.2.1
      (by norm_num [c7_deal, MAX_POSITION_PER_DEAL])⟩

/-! Claim C8: "LIMIT orders carry a price". The hedge-drift rebalance path
builds a LIMIT recommendation without any price (TradeRecommendation's
default `price = None`), and the executor then submits a LIMIT order with no
price — although rit_client.submit_order documents the price as required for
LIMIT orders. The claim states the intent; the code violates it. -/

/-- C8: evaluating the code at the failing input. `check_hedge_drift` emits a
LIMIT rebalance whose price is `none`, and the executor then submits a LIMIT
order carrying no price — contradicting the claim (and the exchange client's
documented requirement that LIMIT orders carry a price). -/
theorem C8_limit_rebalance_has_no_price :
    check_hedge_drift c8_state = [c8_rec] ∧
      c8_rec.order_type = "LIMIT" ∧
      c8_rec.price = none ∧
      (execute_single c8_rec (fun _ => .success 1)).map
          (fun o => (o.order_type, o.price)) = [("LIMIT", (none : Option ℚ))] := by
  refine ⟨?_, rfl, rfl, ?_⟩
  · simp [check_hedge_drift, c8_state, c8_d2_cfg, c8_rec, ideal_hedge_ratio, pyInt,
      HEDGE_RATIO_TOLERANCE, MAX_ORDER_SIZE, min_def, max_def]
    try norm_num
  · simp [execute_single, execute_single_aux, c8_rec, MAX_ORDER_SIZE, min_def]
    try norm_num [execute_single_aux]

/-! Claim C9: chunking. Both the executor and the resolved-deal closer split
quantities into chunks of at most MAX_ORDER_SIZE, and absent rate-limit or
failure the executor's chunks sum exactly to the recommendation's
quantity. -/

theorem execute_single_aux_sum (rec : TradeRecommendation) (resp : ℕ → SubmitResult)
    (hresp : ∀ n, ∃ i, resp n = .success i) :
    ∀ (fuel : ℕ) (remaining : ℤ) (idx : ℕ), remaining.toNat ≤ fuel →
      ((execute_single_aux rec resp fuel remaining idx).map SubmittedOrder.quantity).sum
        = max remaining 0 := by
  intro fuel
  induction fuel with
  | zero =>
      intro r idx h
      simp only [execute_single_aux, List.map_nil, List.sum_nil]
      omega
  | succ f ih =>
      intro r idx h
      by_cases hr : r ≤ 0
      · simp only [execute_single_aux, if_pos hr, List.map_nil, List.sum_nil]
        omega
      · obtain ⟨i, hi⟩ := hresp idx
        simp only [execute_single_aux, if_neg hr, hi]
        rw [List.map_cons, List.sum_cons,
          ih (r - min r MAX_ORDER_SIZE) (idx + 1)
            (by simp only [MAX_ORDER_SIZE] at *; omega)]
        simp only [MAX_ORDER_SIZE] at *
        omega

theorem execute_single_aux_bounds (rec : TradeRecommendation) (resp : ℕ → SubmitResult) :
    ∀ (fuel : ℕ) (remaining : ℤ) (idx : ℕ),
      ∀ o ∈ execute_single_aux rec resp fuel remaining idx,
        0 < o.quantity ∧ o.quantity ≤ MAX_ORDER_SIZE := by
  intro fuel
  induction fuel with
  | zero => intro r idx o ho; simp [execute_single_aux] at ho
  | succ f ih =>
      intro r idx o ho
      by_cases hr : r ≤ 0
      · simp [execute_single_aux, hr] at ho
      · simp only [execute_single_aux, if_neg hr] at ho
        have hchunk : 0 < min r MAX_ORDER_SIZE ∧ min r MAX_ORDER_SIZE ≤ MAX_ORDER_SIZE := by
          simp only [MAX_ORDER_SIZE] at *
          omega
        cases hres : resp idx with
        | success i =>
            rw [hres] at ho
            rcases List.mem_cons.mp ho with hcase | hcase
            · subst hcase; exact hchunk
            · exact ih _ _ o hcase
        | rateLimited w =>
            rw [hres] at ho
            simp only [List.mem_singleton] at ho
            subst ho; exact hchunk
        | failed =>
            rw [hres] at ho
            simp only [List.mem_singleton] at ho
            subst ho; exact hchunk

theorem chunk_qty_bounds :
    ∀ (fuel : ℕ) (qty : ℤ), ∀ c ∈ chunk_qty fuel qty, 0 < c ∧ c ≤ MAX_ORDER_SIZE := by
  intro fuel
  induction fuel with
  | zero => intro q c hc; simp [chunk_qty] at hc
  | succ f ih =>
      intro q c hc
      by_cases hq : q ≤ 0
      · simp [chunk_qty, hq] at hc
      · simp only [chunk_qty, if_neg hq, List.mem_cons] at hc
        rcases hc with hcase | hcase
        · subst hcase
          simp only [MAX_ORDER_SIZE] at *
          omega
        · exact ih _ c hcase

/-- C9: a recommendation with quantity > MAX_ORDER_SIZE (5,000) is split into
sequential sub-orders, each of quantity in (0, MAX_ORDER_SIZE]; absent a
rate-limit signal or submission failure the chunk quantities sum exactly to
the recommendation's quantity; and resolved-deal closing recommendations are
emitted pre-chunked with each chunk in (0, MAX_ORDER_SIZE]. -/
theorem C9_chunking (rec : TradeRecommendation) (resp : ℕ → SubmitResult)
    (hq : rec.quantity > MAX_ORDER_SIZE)
    (hresp : ∀ n, ∃ i, resp n = .success i) :
    ((execute_single rec resp).map SubmittedOrder.quantity).sum = rec.quantity ∧
      (∀ o ∈ execute_single rec resp, 0 < o.quantity ∧ o.quantity ≤ MAX_ORDER_SIZE) ∧
      (∀ deal : DealState, ∀ r ∈ handle_resolved_deal deal,
        0 < r.quantity ∧ r.quantity ≤ MAX_ORDER_SIZE) := by
  refine ⟨?_, ?_, ?_⟩
  · rw [execute_single, execute_single_aux_sum rec resp hresp _ _ _ le_rfl]
    simp only [MAX_ORDER_SIZE] at hq
    omega
  · exact execute_single_aux_bounds rec resp _ _ _
  · intro deal r hr
    simp only [handle_resolved_deal] at hr
    rcases List.mem_append.mp hr with hcase | hcase <;>
      [skip; skip] <;>
      · split at hcase
        · rw [List.mem_map] at hcase
          obtain ⟨c, hc, rfl⟩ := hcase
          exact chunk_qty_bounds _ _ c hc
        · simp at hcase

theorem C9_witness :
    c9_rec.quantity > MAX_ORDER_SIZE ∧
      ((execute_single c9_rec (fun _ => .success 1)).map SubmittedOrder.quantity).sum
        = c9_rec.quantity :=
  ⟨by decide,
    (C9_chunking c9_rec (fun _ => .success 1) (by decide) (fun n => ⟨1, rfl⟩)).1⟩

/-! Claim C10: a non-positive target market price yields zero mispricing and
no entry recommendation. -/

/-- C10: for every deal state whose target market price is not positive,
`target_mispricing` and `target_mispricing_pct` both return exactly 0.0, and
`_analyze_deal` emits no entry recommendation for that deal (0 is below the
minimum mispricing threshold). -/
theorem C10_nonpositive_price_no_signal (deal : DealState) (st : MarketState)
    (h : deal.target_price ≤ 0) :
    target_mispricing deal = 0 ∧ target_mispricing_pct deal = 0 ∧
      analyze_deal deal st = [] := by
  have hm : target_mispricing deal = 0 := by simp [target_mispricing, h]
  refine ⟨hm, by simp [target_mispricing_pct, h], ?_⟩
  simp only [analyze_deal, hm]
  rw [if_pos (by norm_num [MIN_MISPRICING_THRESHOLD])]

theorem C10_witness :
    c10_deal.target_price ≤ 0 ∧ analyze_deal c10_deal c4_state = [] :=
  ⟨by norm_num [c10_deal],
    (C10_nonpositive_price_no_signal c10_deal c4_state (by norm_num [c10_deal])).2.2⟩

